import Mathlib

/-!
Verification of the AuraSnap aura-analysis engine
(backend/internal/services/aura_service.go and its sibling test file).

The Go service is embedded shallowly:

* pure helpers (`validateAIResult`, the trait catalog, the color lists)
  become Lean functions;
* the global `math/rand` source used by `createMockReading` becomes an
  explicit stream of draws (`List Nat`), consumed left to right exactly in
  the order the Go code calls `rand.Intn`;
* the HTTP round trip of `doOpenAIRequest` becomes a value of an outcome
  type (`HTTPOutcome`), and the two JSON decoders (`json.Unmarshal` into
  `openAIResponse`, and into `auraAIResult`) become function parameters,
  since their internals are irrelevant to the control flow being verified;
* the database `Create` call becomes a `DBOutcome` parameter;
* Go `int` fields are `Int`, Go `float64` averages are `Rat` (only the
  guard against division by zero is at issue, never rounding).

Functions that the repository's own test file calls but whose
implementation is not present in the source tree
(`mergeAuraAnalysis`, `deterministicAuraResult`) are modelled from the
specification and marked as such in their doc comments.
-/

/-- The per-color trait entry of the fallback `colorTraits` table
(aura_service.go lines 35-101). -/
structure TraitEntry where
  personality : String
  strengths : List String
  challenges : List String
  dailyAdvice : String
deriving Repr, DecidableEq

/-- The `colorTraits` map (aura_service.go lines 35-101), as a partial
lookup returning `none` for keys outside the ten entries. -/
def colorTraits (c : String) : Option TraitEntry :=
  if c = "red" then some
    { personality := "Passionate, energetic, and action-oriented."
      strengths := ["Courage", "Leadership", "Determination"]
      challenges := ["Impulsiveness", "Patience", "Anger Management"]
      dailyAdvice := "Channel your energy into a physical activity today. Avoid hasty decisions." }
  else if c = "orange" then some
    { personality := "Creative, social, and adventurous."
      strengths := ["Creativity", "Optimism", "Social Skills"]
      challenges := ["Scattered Focus", "Restlessness", "Overcommitment"]
      dailyAdvice := "Start a new creative project. Connect with an old friend." }
  else if c = "yellow" then some
    { personality := "Optimistic, intellectual, and cheerful."
      strengths := ["Analytical Thinking", "Positivity", "Communication"]
      challenges := ["Critical Nature", "Overthinking", "Perfectionism"]
      dailyAdvice := "Share your ideas with others. Take time to relax your mind." }
  else if c = "green" then some
    { personality := "Balanced, growth-oriented, and nurturing."
      strengths := ["Compassion", "Reliability", "Growth Mindset"]
      challenges := ["Jealousy", "Possessiveness", "Insecurity"]
      dailyAdvice := "Spend time in nature. Nurture a relationship or a plant." }
  else if c = "blue" then some
    { personality := "Calm, intuitive, and trustworthy."
      strengths := ["Communication", "Intuition", "Loyalty"]
      challenges := ["Fear of Expression", "Melancholy", "Stubbornness"]
      dailyAdvice := "Speak your truth today. Trust your gut feelings." }
  else if c = "indigo" then some
    { personality := "Intuitive, wise, and deeply spiritual."
      strengths := ["Vision", "Wisdom", "Integrity"]
      challenges := ["Isolation", "Judgment", "Rigidity"]
      dailyAdvice := "Meditate or reflect on your long-term goals. Practice forgiveness." }
  else if c = "violet" then some
    { personality := "Visionary, artistic, and magical."
      strengths := ["Imagination", "Humanitarianism", "Leadership"]
      challenges := ["Unrealistic Expectations", "Arrogance", "Detachment"]
      dailyAdvice := "Engage in art or music. Visualize your ideal future." }
  else if c = "white" then some
    { personality := "Pure, balanced, and spiritually connected."
      strengths := ["Purity", "Healing", "High Vibration"]
      challenges := ["Vulnerability", "Naivety", "Disconnection from Reality"]
      dailyAdvice := "Focus on cleansing your space, physical or mental. Protect your energy." }
  else if c = "gold" then some
    { personality := "Confident, abundant, and empowered."
      strengths := ["Confidence", "Generosity", "Willpower"]
      challenges := ["Ego", "Greed", "Overbearing nature"]
      dailyAdvice := "Share your abundance with others. Practice humility." }
  else if c = "pink" then some
    { personality := "Loving, gentle, and compassionate."
      strengths := ["Love", "Empathy", "Nurturing"]
      challenges := ["Neediness", "Martyrdom", "Lack of Boundaries"]
      dailyAdvice := "Practice self-love. Set healthy boundaries with kindness." }
  else none

/-- The `secondaryColors` list (aura_service.go line 103). -/
def secondaryColors : List String := ["silver", "gold", "white", "black", "grey"]

/-- The `allowedPrimaryColors` set (aura_service.go lines 106-109), the key set of
the Go `map[string]bool`. -/
def allowedPrimaryColors : List String :=
  ["red", "orange", "yellow", "green", "blue", "indigo", "violet", "white", "gold", "pink"]

/-- The `allowedSecondaryColors` set (aura_service.go lines 111-113). -/
def allowedSecondaryColors : List String :=
  ["silver", "gold", "white", "black", "grey"]

/-- Go's `strings.ToLower`, embedded over the character sequence.
(`String.toLower` itself is avoided only because its `mapAux` recursion
does not reduce in the kernel.) -/
def toLowerStr (s : String) : String := String.mk (s.data.map Char.toLower)

/-- Go's `strings.TrimSpace`, embedded over the character sequence:
leading and trailing whitespace removed. -/
def trimStr (s : String) : String :=
  String.mk (((s.data.dropWhile Char.isWhitespace).reverse.dropWhile Char.isWhitespace).reverse)

/-- Structure `auraAIResult` (aura_service.go lines 158-167): the decoded provider
payload. `*string` becomes `Option String`, Go `int` becomes `Int`. -/
structure auraAIResult where
  auraColor : String
  secondaryColor : Option String
  energyLevel : Int
  moodScore : Int
  personality : String
  strengths : List String
  challenges : List String
  dailyAdvice : String
deriving Repr, DecidableEq

/-- The strengths/challenges cardinality fix-up of `validateAIResult`
(aura_service.go lines 354-372).  The Go loop appends `defaults[len(xs)]`
while `len(xs) < 3`, which yields `xs ++ defaults.drop xs.length`; a list
longer than 3 is truncated to its first 3 elements. -/
def ensureThree (xs defaults : List String) : List String :=
  if xs.length < 3 then xs ++ defaults.drop xs.length
  else if xs.length > 3 then xs.take 3
  else xs

/-- Method `validateAIResult` (aura_service.go lines 321-391).  The Go method
mutates its argument in place; here each mutation becomes a `let`
rebinding, in source order. -/
def validateAIResult (r : auraAIResult) : auraAIResult :=
  let auraColor :=
    if allowedPrimaryColors.contains (toLowerStr r.auraColor) then r.auraColor
    else "blue"
  let auraColor := toLowerStr auraColor
  let secondaryColor :=
    match r.secondaryColor with
    | none => none
    | some s =>
      let lower := toLowerStr s
      if allowedSecondaryColors.contains lower then some lower else none
  let energyLevel := if r.energyLevel < 1 then 1 else r.energyLevel
  let energyLevel := if energyLevel > 100 then 100 else energyLevel
  let moodScore := if r.moodScore < 1 then 1 else r.moodScore
  let moodScore := if moodScore > 10 then 10 else moodScore
  let strengths := ensureThree r.strengths ["Resilience", "Adaptability", "Awareness"]
  let challenges := ensureThree r.challenges ["Self-doubt", "Overthinking", "Boundaries"]
  let personality :=
    if trimStr r.personality = "" then
      match colorTraits auraColor with
      | some t => t.personality
      | none => "A balanced and thoughtful individual with a unique energy."
    else r.personality
  let dailyAdvice :=
    if trimStr r.dailyAdvice = "" then
      match colorTraits auraColor with
      | some t => t.dailyAdvice
      | none => "Take a moment to appreciate the present. Your energy is unique."
    else r.dailyAdvice
  { auraColor := auraColor, secondaryColor := secondaryColor,
    energyLevel := energyLevel, moodScore := moodScore,
    personality := personality, strengths := strengths,
    challenges := challenges, dailyAdvice := dailyAdvice }

/-- One draw of Go's `rand.Intn n`: the next raw value of the explicit
random stream, reduced mod `n`, together with the rest of the stream.
The stream stands for the hidden state of the global `math/rand` source. -/
def randIntn (n : Nat) (rng : List Nat) : Nat × List Nat :=
  (rng.headD 0 % n, rng.tail)

/-- The fields of `models.AuraReading` that the analysis engine fills
(the GORM id/timestamp columns and the wall-clock `AnalyzedAt` are set by
the database layer and by `time.Now()` and are outside the claims). -/
structure AuraReading where
  userID : String
  imageURL : String
  auraColor : String
  secondaryColor : Option String
  energyLevel : Int
  moodScore : Int
  personality : String
  strengths : List String
  challenges : List String
  dailyAdvice : String
deriving Repr, DecidableEq

/-- The reading-building part of `createMockReading`
(aura_service.go lines 394-420), with the five `rand.Intn` call sites of
the source consumed from the explicit stream in source order:
`Intn(10)` for the color, `Intn(10)` for the 30%-comment secondary-color
chance (`> 7`), `Intn(5)` for the secondary color when drawn, `Intn(56)`
for energy, `Intn(6)` for mood.  Persistence (line 422) is modelled
separately in `createMockPersist`. -/
def createMockReading (rng : List Nat) (userID imageURL : String) : AuraReading :=
  let colors : List String :=
    ["red", "orange", "yellow", "green", "blue", "indigo", "violet", "white", "gold", "pink"]
  let (ci, rng) := randIntn 10 rng
  let selectedColor := colors.getD ci ""
  let traits := (colorTraits selectedColor).getD ⟨"", [], [], ""⟩
  let (chance, rng) := randIntn 10 rng
  let (secColor, rng) :=
    if chance > 7 then
      let (si, rng) := randIntn 5 rng
      (some (secondaryColors.getD si ""), rng)
    else (none, rng)
  let (e, rng) := randIntn 56 rng
  let (m, _) := randIntn 6 rng
  { userID := userID, imageURL := imageURL, auraColor := selectedColor,
    secondaryColor := secColor, energyLevel := (e : Int) + 40,
    moodScore := (m : Int) + 5, personality := traits.personality,
    strengths := traits.strengths, challenges := traits.challenges,
    dailyAdvice := traits.dailyAdvice }

/-- Outcome of one HTTP round trip in `doOpenAIRequest`
(aura_service.go lines 272-296): the `client.Do` call fails, or a response
arrives but reading its body fails (the error then carries the status
code, line 291), or a response with a status code and a body arrives. -/
inductive HTTPOutcome where
  | netErr (msg : String)
  | readErr (status : Nat) (msg : String)
  | resp (status : Nat) (body : String)
deriving Repr, DecidableEq

/-- One element of `openAIResponse.Choices`
(aura_service.go lines 147-156). -/
structure OpenAIChoice where
  content : String
deriving Repr, DecidableEq

/-- Structure `openAIResponse` (aura_service.go lines 147-156): choice list plus the
optional provider-reported error payload (its message). -/
structure OpenAIResponse where
  choices : List OpenAIChoice
  error : Option String
deriving Repr, DecidableEq

/-- The error classes of `doOpenAIRequest`, one per `return nil, ..., err`
site in aura_service.go lines 272-318, plus the wrapper that
`callOpenAIVision` line 269 puts around the last error when both attempts
were rate-limited. -/
inductive ProvErr where
  | netFail (msg : String)
  | readFail (msg : String)
  | statusErr (code : Nat)
  | bodyParseErr
  | apiErr (msg : String)
  | noChoices
  | resultParseErr
  | afterRetries (e : ProvErr)
deriving Repr, DecidableEq

/-- Method `doOpenAIRequest` (aura_service.go lines 272-319) as a pure function
of the HTTP outcome.  `decodeResp` stands for `json.Unmarshal` into
`openAIResponse` and `decodeAura` for `json.Unmarshal` of the choice's
content into `auraAIResult`; both are parameters because only the control
flow around them is claimed.  The returned `Nat` is the status code the Go
function returns alongside the error (0 before a response exists). -/
def doOpenAIRequest (decodeResp : String → Option OpenAIResponse)
    (decodeAura : String → Option auraAIResult)
    (out : HTTPOutcome) : Except (ProvErr × Nat) auraAIResult :=
  match out with
  | .netErr m => .error (.netFail m, 0)
  | .readErr status m => .error (.readFail m, status)
  | .resp status body =>
    if status ≠ 200 then .error (.statusErr status, status)
    else
      match decodeResp body with
      | none => .error (.bodyParseErr, status)
      | some r =>
        match r.error with
        | some m => .error (.apiErr m, status)
        | none =>
          match r.choices with
          | [] => .error (.noChoices, status)
          | c :: _ =>
            match decodeAura c.content with
            | none => .error (.resultParseErr, status)
            | some res => .ok res

/-- The fixed backoff of `callOpenAIVision`, from
`time.Sleep(2 * time.Second)` at aura_service.go line 253. -/
def retryBackoffSeconds : Nat := 2

/-- Method `callOpenAIVision` (aura_service.go lines 218-270): the two-iteration
retry loop over `doOpenAIRequest`, instrumented with the number of HTTP
attempts actually made.  `outs` supplies the outcome of each attempt.
Source behavior: a success or a non-429 error returns at once; a 429 error
`continue`s into at most one more attempt; when the loop ends (both
attempts rate-limited) the last error is wrapped (line 269). -/
def callOpenAIVision (decodeResp : String → Option OpenAIResponse)
    (decodeAura : String → Option auraAIResult)
    (outs : List HTTPOutcome) : Except (ProvErr × Nat) auraAIResult × Nat :=
  match doOpenAIRequest decodeResp decodeAura (outs.headD (.netErr "")) with
  | .ok r => (.ok r, 1)
  | .error (e, code) =>
    if code = 429 then
      match doOpenAIRequest decodeResp decodeAura ((outs.drop 1).headD (.netErr "")) with
      | .ok r => (.ok r, 2)
      | .error (e1, c1) =>
        if c1 = 429 then (.error (.afterRetries e1, c1), 2)
        else (.error (e1, c1), 2)
    else (.error (e, code), 1)

/-- Outcome of the GORM `s.db.Create(reading)` call. -/
inductive DBOutcome where
  | ok
  | fail (msg : String)
deriving Repr, DecidableEq

/-- The errors `Create` could conceivably return: a provider error or a
persistence error.  The source never returns the provider variant (it
falls back to the mock path instead); the constructor exists so that this
is a theorem about `Create` rather than a consequence of its type. -/
inductive CreateError where
  | provider (e : ProvErr × Nat)
  | db (msg : String)
deriving Repr, DecidableEq

/-- The persistence tail shared by both paths of the service
(aura_service.go lines 211-215 and 422-426): `db.Create` either fails,
surfacing its error, or the reading is returned. -/
def persistReading (db : DBOutcome) (reading : AuraReading) :
    Except CreateError AuraReading :=
  match db with
  | .fail m => .error (.db m)
  | .ok => .ok reading

/-- Method `createMockReading` including its `db.Create` tail
(aura_service.go lines 394-427). -/
def createMockPersist (rng : List Nat) (db : DBOutcome)
    (userID imageURL : String) : Except CreateError AuraReading :=
  persistReading db (createMockReading rng userID imageURL)

/-- Building the `models.AuraReading` from a validated AI result
(aura_service.go lines 197-209). -/
def mkReading (userID imageURL : String) (v : auraAIResult) : AuraReading :=
  { userID := userID, imageURL := imageURL, auraColor := v.auraColor,
    secondaryColor := v.secondaryColor, energyLevel := v.energyLevel,
    moodScore := v.moodScore, personality := v.personality,
    strengths := v.strengths, challenges := v.challenges,
    dailyAdvice := v.dailyAdvice }

/-- Method `Create` (aura_service.go lines 181-216): empty API key or any
provider-call failure falls back to the mock path; otherwise the AI result
is validated, turned into a reading and persisted. -/
def Create (decodeResp : String → Option OpenAIResponse)
    (decodeAura : String → Option auraAIResult)
    (apiKey : String) (outs : List HTTPOutcome) (rng : List Nat)
    (db : DBOutcome) (userID imageURL : String) :
    Except CreateError AuraReading :=
  if apiKey = "" then createMockPersist rng db userID imageURL
  else
    match (callOpenAIVision decodeResp decodeAura outs).1 with
    | .error _ => createMockPersist rng db userID imageURL
    | .ok result =>
      persistReading db (mkReading userID imageURL (validateAIResult result))

/-- Index of the first occurrence of `{` in a character sequence. -/
def firstOpenBraceIdx (xs : List Char) : Option Nat :=
  xs.findIdx? (fun c => c = '{')

/-- Index of the last occurrence of `}` in a character sequence. -/
def lastCloseBraceIdx (xs : List Char) : Option Nat :=
  match xs.reverse.findIdx? (fun c => c = '}') with
  | none => none
  | some j => some (xs.length - 1 - j)

/-- The substring from the first `{` to the last `}` (inclusive), when the
first `{` precedes the last `}`. -/
def bracedSubstring (s : String) : Option String :=
  match firstOpenBraceIdx s.data, lastCloseBraceIdx s.data with
  | some i, some j =>
    if i < j then some (String.mk ((s.data.drop i).take (j - i + 1))) else none
  | _, _ => none

/-- Defined from the spec's words (spec.md §4.3, response handling), for
comparison with the source's content handling in `doOpenAIRequest`:
attempt a direct decode of the reply text first; on failure, locate the
first `{` and the last `}` and attempt to decode the substring between
them; fail only if neither decode succeeds.  (The repository's test file
calls a `parseAuraAIContent` with this contract, but no implementation of
it is present in the source tree.) -/
def parseAuraAIContentSpec (decodeAura : String → Option auraAIResult)
    (content : String) : Option auraAIResult :=
  match decodeAura content with
  | some r => some r
  | none =>
    match bracedSubstring content with
    | some sub => decodeAura sub
    | none => none

/-- The three fields of `auraAnalysisResult` exercised by the repository's
merge test (`TestMergeAuraAnalysisFallbackBehavior`). -/
structure auraAnalysisResult where
  auraColor : String
  energyLevel : Int
  moodScore : Int
deriving Repr, DecidableEq

/-- Clamp `x` into `[lo, hi]`. -/
def clampInt (lo hi x : Int) : Int :=
  if x < lo then lo else if x > hi then hi else x

/-- Modelled from the spec: `mergeAuraAnalysis` is called by the
repository's test file but its implementation is not present in the source
tree.  Spec.md §4.4 and §8: a candidate field replaces the baseline's
field only when the candidate supplies a non-empty/non-zero value for it,
and out-of-range numeric fields are clamped into range, not discarded. -/
def mergeAuraAnalysis (base incoming : auraAnalysisResult) : auraAnalysisResult :=
  { auraColor :=
      if incoming.auraColor = "" then base.auraColor else incoming.auraColor
    energyLevel :=
      clampInt 1 100 (if incoming.energyLevel = 0 then base.energyLevel else incoming.energyLevel)
    moodScore :=
      clampInt 1 10 (if incoming.moodScore = 0 then base.moodScore else incoming.moodScore) }

/-- The fields of the deterministic baseline that spec.md §4.1 derives
from the hash digest (narrative fields come later from the trait
catalog). -/
structure BaselineResult where
  auraColor : String
  secondaryColor : Option String
  energyLevel : Nat
  moodScore : Nat
deriving Repr, DecidableEq

/-- Modelled from the spec (spec.md §4.1): the secondary-color draw of the
deterministic baseline.  Triggered exactly when `byte[3] mod 4 = 0`; the
draw is `byte[4] mod 5` into the fixed 5-color list; a draw equal to the
primary color is omitted, never retried. -/
def secondaryDraw (digest : List Nat) (primary : String) : Option String :=
  if digest.getD 3 0 % 4 = 0 then
    let sc := secondaryColors.getD (digest.getD 4 0 % 5) ""
    if sc = primary then none else some sc
  else none

/-- Modelled from the spec (spec.md §4.1): the digest-to-result mapping of
the deterministic baseline generator.  `byte[0] mod 10` picks the primary
color, `byte[1] mod 51 + 45` the energy, `byte[2] mod 6 + 5` the mood. -/
def baselineFromDigest (digest : List Nat) : BaselineResult :=
  let primary := allowedPrimaryColors.getD (digest.getD 0 0 % 10) ""
  { auraColor := primary
    secondaryColor := secondaryDraw digest primary
    energyLevel := digest.getD 1 0 % 51 + 45
    moodScore := digest.getD 2 0 % 6 + 5 }

/-- Modelled from the spec (spec.md §4.1): the hashed key is the
normalized (trimmed, lower-cased) image reference concatenated with the
user identity, separated by a fixed delimiter. -/
def baselineKey (userID imageRef : String) : String :=
  toLowerStr (trimStr imageRef) ++ "|" ++ userID

/-- Modelled from the spec: `deterministicAuraResult` (generateBaseline)
is called by the repository's test file but its implementation is not
present in the source tree.  Spec.md §4.1: hash the normalized key and
read the result off the digest bytes; `hash` stands for the cryptographic
hash (e.g. SHA-256) as a byte sequence, a parameter because every claimed
property holds for all digests. -/
def deterministicAuraResult (hash : String → List Nat)
    (userID imageRef : String) : BaselineResult :=
  baselineFromDigest (hash (baselineKey userID imageRef))

/-- Structure `dto.AuraStatsResponse` as filled by `GetStats`: the Go `map[string]int`
becomes an association list built in iteration order, the `float64`
averages become exact rationals (only the division-by-zero guard is at
issue, never rounding). -/
structure AuraStatsResponse where
  colorDistribution : List (String × Nat)
  totalReadings : Nat
  averageEnergy : Rat
  averageMood : Rat
deriving Repr, DecidableEq

/-- The increment `colorDist[r.AuraColor]++` (aura_service.go line 517) on the
association-list model of the Go map. -/
def incrColor : List (String × Nat) → String → List (String × Nat)
  | [], c => [(c, 1)]
  | (k, v) :: rest, c =>
    if k = c then (k, v + 1) :: rest else (k, v) :: incrColor rest c

/-- Method `GetStats` (aura_service.go lines 497-528) as a function of the
readings the store returns for the user: the empty-list branch returns the
zero statistics without dividing; otherwise counts, sums and averages are
computed over the list. -/
def GetStats (readings : List AuraReading) : AuraStatsResponse :=
  if readings.isEmpty then
    { colorDistribution := [], totalReadings := 0,
      averageEnergy := 0, averageMood := 0 }
  else
    let colorDist := readings.foldl (fun m r => incrColor m r.auraColor) []
    let totalEnergy : Int := readings.foldl (fun a r => a + r.energyLevel) 0
    let totalMood : Int := readings.foldl (fun a r => a + r.moodScore) 0
    { colorDistribution := colorDist, totalReadings := readings.length,
      averageEnergy := (totalEnergy : Rat) / (readings.length : Rat),
      averageMood := (totalMood : Rat) / (readings.length : Rat) }

/-- A fixed well-formed analysis payload, used as the target of the stub
decoders below. -/
def stubAuraResult : auraAIResult :=
  { auraColor := "blue", secondaryColor := none, energyLevel := 80,
    moodScore := 8, personality := "p", strengths := ["a", "b", "c"],
    challenges := ["x", "y", "z"], dailyAdvice := "d" }

/-- A concrete decoder standing for `json.Unmarshal` into `auraAIResult`
on a reply whose JSON object is wrapped in prose: it succeeds exactly on
the bare braced text, as the real decoder fails on prose-wrapped JSON. -/
def decodeOnlyBraced (s : String) : Option auraAIResult :=
  if s = "{ok}" then some stubAuraResult else none

/-- A concrete decoder standing for `json.Unmarshal` into
`openAIResponse`: the body `body` decodes to one choice whose content
wraps its JSON object in prose. -/
def decodeRespStub (s : String) : Option OpenAIResponse :=
  if s = "body" then
    some { choices := [{ content := "reply {ok} end" }], error := none }
  else none

/-! ## Claim theorems -/

/-- C1 (code bug): the no-provider analysis path of the source,
`createMockReading`, is not a deterministic function of
`(userID, imageRef)`: it draws every field from the global `math/rand`
source, so two invocations with identical inputs but different generator
states return different primary colors (here `red` versus `orange`),
contradicting the determinism the spec and the repository's own
`TestDeterministicAuraResultStable` require. -/
theorem createMockReading_depends_on_rng_state :
    (createMockReading [0, 0, 0, 0, 0] "11111111-1111-1111-1111-111111111111"
        "https://cdn.example.com/user/aura-photo-1.jpg").auraColor = "red"
    ∧ (createMockReading [1, 0, 0, 0, 0] "11111111-1111-1111-1111-111111111111"
        "https://cdn.example.com/user/aura-photo-1.jpg").auraColor = "orange" := by
  decide

/-- C2 (counterexample): a candidate whose primary and secondary colors
are both `gold` passes `validateAIResult` unchanged, so the engine can
return a result whose secondary color equals its primary color. -/
theorem validateAIResult_secondary_can_equal_primary :
    (validateAIResult
        { auraColor := "gold", secondaryColor := some "gold", energyLevel := 50,
          moodScore := 7, personality := "p", strengths := ["a", "b", "c"],
          challenges := ["x", "y", "z"], dailyAdvice := "d" }).secondaryColor =
      some (validateAIResult
        { auraColor := "gold", secondaryColor := some "gold", energyLevel := 50,
          moodScore := 7, personality := "p", strengths := ["a", "b", "c"],
          challenges := ["x", "y", "z"], dailyAdvice := "d" }).auraColor := by
  decide

/-- C2 (amended): on both producing paths — `validateAIResult` and
`createMockReading` — a present secondary color is one of the 5 allowed
values; neither path enforces that it differs from the primary color. -/
theorem secondary_color_always_allowed :
    (∀ (r : auraAIResult) (s : String),
      (validateAIResult r).secondaryColor = some s → s ∈ allowedSecondaryColors)
    ∧ (∀ (rng : List Nat) (u i s : String),
      (createMockReading rng u i).secondaryColor = some s → s ∈ secondaryColors) := by
  constructor
  · intro r s h
    simp only [validateAIResult] at h
    cases hr : r.secondaryColor with
    | none => rw [hr] at h; simp at h
    | some s0 =>
      rw [hr] at h
      simp only at h
      by_cases hc : allowedSecondaryColors.contains (toLowerStr s0) = true
      · rw [if_pos hc] at h
        injection h with h
        subst h
        simpa using hc
      · rw [if_neg hc] at h
        simp at h
  · intro rng u i s h
    simp only [createMockReading, randIntn] at h
    split at h
    · simp only [Option.some.injEq] at h
      subst h
      have : rng.tail.tail.headD 0 % 5 = 0 ∨ rng.tail.tail.headD 0 % 5 = 1
          ∨ rng.tail.tail.headD 0 % 5 = 2 ∨ rng.tail.tail.headD 0 % 5 = 3
          ∨ rng.tail.tail.headD 0 % 5 = 4 := by omega
      rcases this with h5 | h5 | h5 | h5 | h5 <;> rw [h5] <;> decide
    · simp at h

/-- C2 (witness for the amended theorem): the gold/gold candidate's
surviving secondary color is indeed in the allowed list. -/
theorem secondary_color_always_allowed_witness :
    "gold" ∈ allowedSecondaryColors :=
  secondary_color_always_allowed.1
    { auraColor := "gold", secondaryColor := some "gold", energyLevel := 50,
      moodScore := 7, personality := "p", strengths := ["a", "b", "c"],
      challenges := ["x", "y", "z"], dailyAdvice := "d" } "gold" (by decide)

/-- C3: `Create` never surfaces a provider failure — whenever the
provider call errors (and an API key is configured, so the call was even
attempted), `Create` falls back to the mock path; and every error `Create`
does return is the persistence error, never a provider error. -/
theorem Create_provider_failures_not_surfaced :
    ∀ (dr : String → Option OpenAIResponse) (da : String → Option auraAIResult)
      (key : String) (outs : List HTTPOutcome) (rng : List Nat)
      (db : DBOutcome) (u i : String),
      ((∃ pe, (callOpenAIVision dr da outs).1 = .error pe) → key ≠ "" →
        Create dr da key outs rng db u i = createMockPersist rng db u i)
      ∧ (∀ e, Create dr da key outs rng db u i = .error e →
          ∃ m, e = .db m ∧ db = .fail m) := by
  intro dr da key outs rng db u i
  constructor
  · rintro ⟨pe, hres⟩ hkey
    simp only [Create]
    rw [if_neg hkey, hres]
  · intro e he
    simp only [Create] at he
    by_cases hkey : key = ""
    · rw [if_pos hkey] at he
      simp only [createMockPersist, persistReading] at he
      cases db with
      | ok => simp at he
      | fail m => simp only [Except.error.injEq] at he; exact ⟨m, he.symm, rfl⟩
    · rw [if_neg hkey] at he
      cases hres : (callOpenAIVision dr da outs).1 with
      | error pe =>
        rw [hres] at he
        simp only [createMockPersist, persistReading] at he
        cases db with
        | ok => simp at he
        | fail m => simp only [Except.error.injEq] at he; exact ⟨m, he.symm, rfl⟩
      | ok r =>
        rw [hres] at he
        simp only [persistReading] at he
        cases db with
        | ok => simp at he
        | fail m => simp only [Except.error.injEq] at he; exact ⟨m, he.symm, rfl⟩

/-- C3 (witness): with a configured key, a failing network call and a
healthy store, `Create` returns the mock reading with no error. -/
theorem Create_provider_failures_not_surfaced_witness :
    Create (fun _ => none) (fun _ => none) "k" [HTTPOutcome.netErr "boom"]
      [0, 1, 2, 3, 4] DBOutcome.ok "u1" "img" =
      Except.ok (createMockReading [0, 1, 2, 3, 4] "u1" "img") := by
  have h := (Create_provider_failures_not_surfaced (fun _ => none) (fun _ => none)
    "k" [HTTPOutcome.netErr "boom"] [0, 1, 2, 3, 4] DBOutcome.ok "u1" "img").1
    ⟨(ProvErr.netFail "boom", 0), rfl⟩ (by decide)
  exact h.trans rfl

/-- C4 (counterexample): a candidate with the unrecognized primary color
`purple` is not rejected — `validateAIResult` has no failure result at
all; it silently substitutes the default color `blue` and returns the
candidate otherwise intact. -/
theorem validateAIResult_substitutes_default_color :
    validateAIResult
        { auraColor := "purple", secondaryColor := none, energyLevel := 50,
          moodScore := 7, personality := "p", strengths := ["a", "b", "c"],
          challenges := ["x", "y", "z"], dailyAdvice := "d" } =
      { auraColor := "blue", secondaryColor := none, energyLevel := 50,
        moodScore := 7, personality := "p", strengths := ["a", "b", "c"],
        challenges := ["x", "y", "z"], dailyAdvice := "d" }
    ∧ allowedPrimaryColors.contains (toLowerStr "purple") = false := by
  decide

/-- C4 (amended): when the lower-cased primary color is not among the 10
allowed values, `validateAIResult` does not reject the candidate — it has
no rejection path — and instead forces the primary color to the fixed
default `blue`. -/
theorem validateAIResult_invalid_color_defaults_to_blue :
    ∀ r : auraAIResult,
      allowedPrimaryColors.contains (toLowerStr r.auraColor) = false →
      (validateAIResult r).auraColor = "blue" := by
  intro r h
  simp only [validateAIResult, h, Bool.false_eq_true, if_false]
  decide

/-- C4 (witness for the amended theorem), at the `purple` candidate. -/
theorem validateAIResult_invalid_color_defaults_to_blue_witness :
    (validateAIResult
        { auraColor := "purple", secondaryColor := none, energyLevel := 50,
          moodScore := 7, personality := "p", strengths := ["a", "b", "c"],
          challenges := ["x", "y", "z"], dailyAdvice := "d" }).auraColor = "blue" :=
  validateAIResult_invalid_color_defaults_to_blue
    { auraColor := "purple", secondaryColor := none, energyLevel := 50,
      moodScore := 7, personality := "p", strengths := ["a", "b", "c"],
      challenges := ["x", "y", "z"], dailyAdvice := "d" } (by decide)

/-- C5: the test's merge example — candidate `("", 120, 0)` onto baseline
`("red", 50, 7)` yields `("red", 100, 7)` — together with the field-level
override semantics: an empty/zero candidate field keeps the baseline's
value, a supplied field overrides, and the merged numerics are clamped
into range rather than discarded. -/
theorem mergeAuraAnalysis_fallback_semantics :
    mergeAuraAnalysis ⟨"red", 50, 7⟩ ⟨"", 120, 0⟩ = ⟨"red", 100, 7⟩
    ∧ (∀ b c : auraAnalysisResult,
        (mergeAuraAnalysis b c).auraColor =
          (if c.auraColor = "" then b.auraColor else c.auraColor)
        ∧ (mergeAuraAnalysis b c).energyLevel =
            clampInt 1 100 (if c.energyLevel = 0 then b.energyLevel else c.energyLevel)
        ∧ (mergeAuraAnalysis b c).moodScore =
            clampInt 1 10 (if c.moodScore = 0 then b.moodScore else c.moodScore)) :=
  ⟨by decide, fun b c => ⟨rfl, rfl, rfl⟩⟩

/-- C6 (counterexample): `doOpenAIRequest` has no brace-extraction
fallback: on a 200 response whose choice content wraps its JSON object in
prose, it returns a parse error even though decoding the substring from
the first `{` to the last `}` (the spec's fallback, `parseAuraAIContentSpec`)
succeeds — so a parse error is not returned "only if neither decode
succeeds". -/
theorem doOpenAIRequest_lacks_brace_fallback :
    doOpenAIRequest decodeRespStub decodeOnlyBraced (.resp 200 "body") =
      .error (.resultParseErr, 200)
    ∧ parseAuraAIContentSpec decodeOnlyBraced "reply {ok} end" =
      some stubAuraResult :=
  ⟨rfl, rfl⟩

/-- C6 (amended): the provider client attempts only the direct JSON
decode of the reply's text content; whenever that decode fails (all
earlier response checks having passed), it returns a parse error
immediately, with no first-`{`/last-`}` substring attempt. -/
theorem doOpenAIRequest_direct_decode_only :
    ∀ (dr : String → Option OpenAIResponse) (da : String → Option auraAIResult)
      (body : String) (resp : OpenAIResponse) (c : OpenAIChoice)
      (rest : List OpenAIChoice),
      dr body = some resp → resp.error = none → resp.choices = c :: rest →
      da c.content = none →
      doOpenAIRequest dr da (.resp 200 body) = .error (.resultParseErr, 200) := by
  intro dr da body resp c rest hdr herr hch hda
  simp only [doOpenAIRequest, hdr, herr, hch, hda]
  rw [if_neg (by decide : ¬(200 : Nat) ≠ 200)]

/-- C6 (witness for the amended theorem), at the stub decoders. -/
theorem doOpenAIRequest_direct_decode_only_witness :
    doOpenAIRequest decodeRespStub decodeOnlyBraced (.resp 200 "body") =
      .error (.resultParseErr, 200) :=
  doOpenAIRequest_direct_decode_only decodeRespStub decodeOnlyBraced "body"
    { choices := [{ content := "reply {ok} end" }], error := none }
    { content := "reply {ok} end" } [] (by decide) (by decide) (by decide)
    (by decide)

/-- C7: the provider client makes at most two HTTP attempts, a second
attempt happens exactly when the first attempt's error carried status 429,
and the fixed backoff before the retry is two seconds. -/
theorem callOpenAIVision_retry_policy :
    ∀ (dr : String → Option OpenAIResponse) (da : String → Option auraAIResult)
      (outs : List HTTPOutcome),
      (callOpenAIVision dr da outs).2 ≤ 2
      ∧ ((callOpenAIVision dr da outs).2 = 2 ↔
          ∃ e, doOpenAIRequest dr da (outs.headD (.netErr "")) = .error (e, 429))
      ∧ retryBackoffSeconds = 2 := by
  intro dr da outs
  rcases hres : doOpenAIRequest dr da (outs.headD (.netErr "")) with ⟨e, code⟩ | r
  · simp only [callOpenAIVision, hres]
    by_cases hc : code = 429
    · subst hc
      rw [if_pos rfl]
      rcases hres1 : doOpenAIRequest dr da ((outs.drop 1).headD (.netErr "")) with ⟨e1, c1⟩ | r1
      · simp only [hres1]
        by_cases hc1 : c1 = 429
        · subst hc1
          rw [if_pos rfl]
          exact ⟨by omega, ⟨fun _ => ⟨e, rfl⟩, fun _ => by trivial⟩, rfl⟩
        · rw [if_neg hc1]
          exact ⟨by omega, ⟨fun _ => ⟨e, rfl⟩, fun _ => by trivial⟩, rfl⟩
      · simp only [hres1]
        exact ⟨by omega, ⟨fun _ => ⟨e, rfl⟩, fun _ => by trivial⟩, rfl⟩
    · rw [if_neg hc]
      refine ⟨by omega, ⟨?_, ?_⟩, rfl⟩
      · intro h
        exact absurd h (by omega)
      · rintro ⟨e', he'⟩
        injection he' with h1
        exact absurd (congrArg Prod.snd h1) hc
  · simp only [callOpenAIVision, hres]
    refine ⟨by omega, ?_, rfl⟩
    simp

/-- C8: `validateAIResult` clamps `energyLevel` into `[1,100]` and
`moodScore` into `[1,10]` — the output numerics are exactly the clamped
inputs, and an out-of-range numeric is never cause for rejection, since
`validateAIResult` is total and always returns a result. -/
theorem validateAIResult_clamps_numerics :
    ∀ r : auraAIResult,
      (validateAIResult r).energyLevel = clampInt 1 100 r.energyLevel
      ∧ (validateAIResult r).moodScore = clampInt 1 10 r.moodScore
      ∧ 1 ≤ (validateAIResult r).energyLevel
      ∧ (validateAIResult r).energyLevel ≤ 100
      ∧ 1 ≤ (validateAIResult r).moodScore
      ∧ (validateAIResult r).moodScore ≤ 10 := by
  intro r
  simp only [validateAIResult, clampInt]
  refine ⟨?_, ?_, ?_, ?_, ?_, ?_⟩ <;> split_ifs <;> omega

/-- C9: every result of the deterministic baseline generator (modelled
from the spec, for any hash) has energy in `[45,95]` and mood in `[5,10]`,
a present secondary color implies the digest trigger `byte[3] mod 4 = 0`,
and under that trigger the secondary color is exactly the `byte[4] mod 5`
draw, omitted when it equals the primary color. -/
theorem deterministicAuraResult_ranges_and_trigger :
    ∀ (hash : String → List Nat) (userID imageRef : String),
      45 ≤ (deterministicAuraResult hash userID imageRef).energyLevel
      ∧ (deterministicAuraResult hash userID imageRef).energyLevel ≤ 95
      ∧ 5 ≤ (deterministicAuraResult hash userID imageRef).moodScore
      ∧ (deterministicAuraResult hash userID imageRef).moodScore ≤ 10
      ∧ ((deterministicAuraResult hash userID imageRef).secondaryColor ≠ none →
          (hash (baselineKey userID imageRef)).getD 3 0 % 4 = 0)
      ∧ ((hash (baselineKey userID imageRef)).getD 3 0 % 4 ≠ 0 →
          (deterministicAuraResult hash userID imageRef).secondaryColor = none)
      ∧ (deterministicAuraResult hash userID imageRef).secondaryColor =
          secondaryDraw (hash (baselineKey userID imageRef))
            (deterministicAuraResult hash userID imageRef).auraColor := by
  intro hash userID imageRef
  have h51 : (hash (baselineKey userID imageRef)).getD 1 0 % 51 < 51 :=
    Nat.mod_lt _ (by decide)
  have h6 : (hash (baselineKey userID imageRef)).getD 2 0 % 6 < 6 :=
    Nat.mod_lt _ (by decide)
  refine ⟨?_, ?_, ?_, ?_, ?_, ?_, rfl⟩
  · simp only [deterministicAuraResult, baselineFromDigest]; omega
  · simp only [deterministicAuraResult, baselineFromDigest]; omega
  · simp only [deterministicAuraResult, baselineFromDigest]; omega
  · simp only [deterministicAuraResult, baselineFromDigest]; omega
  · intro hne
    simp only [deterministicAuraResult, baselineFromDigest, secondaryDraw] at hne
    by_cases h4 : (hash (baselineKey userID imageRef)).getD 3 0 % 4 = 0
    · exact h4
    · rw [if_neg h4] at hne; exact absurd rfl hne
  · intro h4
    simp only [deterministicAuraResult, baselineFromDigest, secondaryDraw]
    rw [if_neg h4]

/-- C9 (witness): at the all-zeros digest the trigger fires, the primary
is `red`, the secondary draw is `silver` and survives, and the ranges
hold. -/
theorem deterministicAuraResult_ranges_and_trigger_witness :
    (deterministicAuraResult (fun _ => [0, 0, 0, 0, 0]) "u1" "img").secondaryColor =
      some "silver"
    ∧ 45 ≤ (deterministicAuraResult (fun _ => [0, 0, 0, 0, 0]) "u1" "img").energyLevel := by
  have h := deterministicAuraResult_ranges_and_trigger
    (fun _ => [0, 0, 0, 0, 0]) "u1" "img"
  exact ⟨h.2.2.2.2.2.2.trans (by decide), h.1⟩

/-- C10: `GetStats` on a user with zero stored readings returns zero
totals, zero averages and an empty color distribution without dividing;
and on any non-empty reading list the averages divide the field sums by
the reading count, which is provably non-zero — the division-by-zero
branch is unreachable. -/
theorem GetStats_zero_readings_and_guarded_division :
    GetStats [] = { colorDistribution := [], totalReadings := 0,
                    averageEnergy := 0, averageMood := 0 }
    ∧ ∀ readings : List AuraReading, readings ≠ [] →
        ((readings.length : Rat) ≠ 0
        ∧ (GetStats readings).averageEnergy =
            ((readings.foldl (fun a r => a + r.energyLevel) (0 : Int) : Int) : Rat) /
              (readings.length : Rat)
        ∧ (GetStats readings).averageMood =
            ((readings.foldl (fun a r => a + r.moodScore) (0 : Int) : Int) : Rat) /
              (readings.length : Rat)) := by
  constructor
  · rfl
  · intro readings hne
    have hlen : readings.length ≠ 0 := by
      intro h0
      exact hne (List.length_eq_zero.mp h0)
    have hempty : readings.isEmpty = false := by
      cases readings with
      | nil => exact absurd rfl hne
      | cons a l => rfl
    refine ⟨?_, ?_, ?_⟩
    · exact_mod_cast hlen
    · simp only [GetStats, hempty, Bool.false_eq_true, if_false]
    · simp only [GetStats, hempty, Bool.false_eq_true, if_false]

/-- C10 (witness): a one-reading list, where the guard is non-zero and
the averages are the field values themselves. -/
theorem GetStats_zero_readings_and_guarded_division_witness :
    (([({ userID := "u", imageURL := "i", auraColor := "red",
          secondaryColor := none, energyLevel := 50, moodScore := 7,
          personality := "p", strengths := ["a", "b", "c"],
          challenges := ["x", "y", "z"],
          dailyAdvice := "d" } : AuraReading)].length : Rat) ≠ 0)
    ∧ GetStats [] = { colorDistribution := [], totalReadings := 0,
                      averageEnergy := 0, averageMood := 0 } :=
  ⟨(GetStats_zero_readings_and_guarded_division.2
      [{ userID := "u", imageURL := "i", auraColor := "red",
         secondaryColor := none, energyLevel := 50, moodScore := 7,
         personality := "p", strengths := ["a", "b", "c"],
         challenges := ["x", "y", "z"], dailyAdvice := "d" }]
      (by decide)).1,
    GetStats_zero_readings_and_guarded_division.1⟩
